import Mathlib

/-!
Verification development for the nuu-dictate voice-to-text utility.

Shallow embedding of the Python sources:
  - `src/nuu_dictate/config.py`  (Config: environment-backed settings, validate)
  - `src/nuu_dictate/cli.py`     (argument overrides, validate-only mode)
  - `src/nuu_dictate/audio.py`   (AudioRecorder: start/stop/capture, WAV writer)
  - `src/nuu_dictate/transcription.py` (TranscriptionService)
  - `src/nuu_dictate/app.py`     (VoiceToTextApp hotkey handler)

Machine integers are Nat/Int; bytes are Nat values below 256; the process
environment is an association list (later bindings shadow earlier ones,
modelling mutation of os.environ); the filesystem is a record of existing
directories plus the set of paths where mkdir can succeed.
-/

namespace NuuDictate

/-! ## Process environment (os.environ / os.getenv) -/

/-- The process environment: an association list from variable names to
values.  A `setenv` prepends, so the most recent binding wins, which models
in-place mutation of `os.environ`. -/
abbrev Env : Type := List (String × String)

/-- Lookup of a variable, first (most recent) binding wins: `os.getenv(k)`. -/
def getenv : Env → String → Option String
  | [], _ => none
  | (k2, v) :: rest, k => if k2 = k then some v else getenv rest k

/-- Mutation `os.environ[k] = v`, modelled by shadowing. -/
def setenv (e : Env) (k v : String) : Env := (k, v) :: e

/-- Lookup with a default: `os.getenv(k, d)`. -/
def getenvD (e : Env) (k d : String) : String := (getenv e k).getD d

/-! ## Python int() on strings

`int(s)` accepts an optional sign followed by decimal digits and raises
`ValueError` otherwise; `none` models the raised exception.  (Surrounding
whitespace and underscore digit grouping, which the sources never rely on,
are not modelled.) -/

/-- Value of a string of decimal digit characters. -/
def digitsVal (cs : List Char) : Nat :=
  cs.foldl (fun a c => 10 * a + (c.toNat - 48)) 0

/-- Python `int(s)` for strings: `none` models an uncaught `ValueError`. -/
def parsePyInt (s : String) : Option Int :=
  match s.toList with
  | [] => none
  | c :: rest =>
    if c = '-' then
      if rest ≠ [] ∧ rest.all Char.isDigit then some (-(digitsVal rest : Int)) else none
    else if c = '+' then
      if rest ≠ [] ∧ rest.all Char.isDigit then some (digitsVal rest : Int) else none
    else if (c :: rest).all Char.isDigit then some (digitsVal (c :: rest) : Int)
    else none

/-! ## Config (src/nuu_dictate/config.py)

Each Config attribute is a `@property` whose body calls `os.getenv` at every
access, so each field is a function of the current environment, not of any
state captured at construction time. -/

/-- Property `Config.openai_api_key`: `os.getenv("OPENAI_API_KEY")`. -/
def openai_api_key (e : Env) : Option String := getenv e "OPENAI_API_KEY"

/-- Property `Config.openai_base_url` with its documented default. -/
def openai_base_url (e : Env) : String :=
  getenvD e "OPENAI_BASE_URL" "https://audio-turbo.us-virginia-1.direct.fireworks.ai/v1"

/-- Property `Config.audio_sample_rate`: `int(os.getenv(..., "44100"))`;
`none` models the uncaught `ValueError` when the value is non-numeric. -/
def audio_sample_rate (e : Env) : Option Int :=
  parsePyInt (getenvD e "AUDIO_SAMPLE_RATE" "44100")

/-- Property `Config.audio_channels`: `int(os.getenv(..., "1"))`. -/
def audio_channels (e : Env) : Option Int :=
  parsePyInt (getenvD e "AUDIO_CHANNELS" "1")

/-- Property `Config.audio_chunk_size`: `int(os.getenv(..., "1024"))`. -/
def audio_chunk_size (e : Env) : Option Int :=
  parsePyInt (getenvD e "AUDIO_CHUNK_SIZE" "1024")

/-- Property `Config.hotkey_combination` with its documented default. -/
def hotkey_combination (e : Env) : String :=
  getenvD e "HOTKEY_COMBINATION" "<cmd>+<shift>+a"

/-- Property `Config.log_level` with its documented default. -/
def log_level (e : Env) : String := getenvD e "LOG_LEVEL" "INFO"

/-- Python truthiness of an optional string: `None` and `""` are falsy. -/
def pyTruthyStr : Option String → Bool
  | none => false
  | some s => s ≠ ""

/-! ## Filesystem model for recordings_folder / validate -/

/-- Filesystem: which directories exist, and at which paths `mkdir` is able
to succeed (permissions, valid parents, ...). -/
structure Fs where
  dirs : List String
  mkdirOk : List String
  deriving DecidableEq

/-- `Path.mkdir(parents=True, exist_ok=True)`: succeeds silently if the
directory exists, creates it when creatable, raises (`none`) otherwise. -/
def mkdirParents (fs : Fs) (p : String) : Option Fs :=
  if p ∈ fs.dirs then some fs
  else if p ∈ fs.mkdirOk then some ⟨p :: fs.dirs, fs.mkdirOk⟩
  else none

/-- Test of `os.path.isabs` on posix: the path begins with a slash. -/
def isAbsPath (f : String) : Bool :=
  match f.toList with
  | [] => false
  | c :: _ => c = '/'

/-- Folder resolution in property `Config.recordings_folder`: relative paths
are joined under the home directory. -/
def resolveRecFolder (home : String) (e : Env) : String :=
  let f := getenvD e "RECORDINGS_FOLDER" "Documents/VoiceRecordings"
  if isAbsPath f then f else home ++ "/" ++ f

/-- Property `Config.recordings_folder`: resolves the folder and performs
`mkdir(parents=True, exist_ok=True)` on every access; `none` models the
exception escaping when the directory cannot be created. -/
def recordings_folder (home : String) (e : Env) (fs : Fs) : Option (String × Fs) :=
  (mkdirParents fs (resolveRecFolder home e)).map (fun fs2 => (resolveRecFolder home e, fs2))

/-- Method `Config.validate`: false when the API key is falsy, otherwise
checks that the recordings folder exists (after the property just created
it).  `none` models an exception escaping from the folder property. -/
def validate (home : String) (e : Env) (fs : Fs) : Option (Bool × Fs) :=
  if ¬ pyTruthyStr (openai_api_key e) then some (false, fs)
  else
    match recordings_folder home e fs with
    | none => none
    | some (p, fs2) => some (decide (p ∈ fs2.dirs), fs2)

/-! ## CLI (src/nuu_dictate/cli.py) -/

/-- Parsed command-line arguments relevant to `main`. -/
structure Args where
  log_level : Option String
  recordings_folder : Option String
  hotkey : Option String
  validate_config : Bool
  deriving DecidableEq

/-- The three override blocks in `cli.main`: each present flag mutates the
corresponding environment variable before Config is re-created. -/
def applyOverrides (a : Args) (e : Env) : Env :=
  let e1 := match a.log_level with
    | some v => setenv e "LOG_LEVEL" v
    | none => e
  let e2 := match a.recordings_folder with
    | some v => setenv e1 "RECORDINGS_FOLDER" v
    | none => e1
  match a.hotkey with
  | some v => setenv e2 "HOTKEY_COMBINATION" v
  | none => e2

/-- Observable outcome of `cli.main`: the `sys.exit` code if the process
exits during startup handling, and whether the global hotkey listener was
started. -/
structure CliOutcome where
  exitCode : Option Nat
  hotkeyListenerStarted : Bool
  deriving DecidableEq

/-- `cli.main` after argument parsing: applies the overrides, then either
runs the validate-only branch (exit 0/1, listener never started; an
exception from validation is caught by the outer handler and exits 1) or
proceeds to `app.run`, which starts the listener only when validation
passes. -/
def cliMain (home : String) (a : Args) (e : Env) (fs : Fs) : CliOutcome :=
  let e2 := applyOverrides a e
  if a.validate_config then
    match validate home e2 fs with
    | some (true, _) => ⟨some 0, false⟩
    | some (false, _) => ⟨some 1, false⟩
    | none => ⟨some 1, false⟩
  else
    match validate home e2 fs with
    | some (true, _) => ⟨none, true⟩
    | _ => ⟨none, false⟩

/-! ## AudioRecorder (src/nuu_dictate/audio.py)

Byte chunks are lists of byte values.  Stream and thread handles only need
to record presence, so they are `Option Nat` ids. -/

/-- Mutable fields of `AudioRecorder` touched by start/stop/capture. -/
structure RecorderState where
  recording : Bool
  audio_frames : List (List Nat)
  audio_stream : Option Nat
  recording_thread : Option Nat
  deriving DecidableEq

/-- Recorder state right after `__init__`. -/
def initRecorder : RecorderState :=
  ⟨false, [], none, none⟩

/-- Method `AudioRecorder.start_recording`.  `openOk` is whether
`audio.open` (the only fallible statement of the try block used by the
application, which passes no callback) succeeds.  On the exception path the
flag was already set and the buffer already cleared, and the handler only
resets the flag. -/
def start_recording (openOk : Bool) (s : RecorderState) : Bool × RecorderState :=
  if s.recording then (false, s)
  else if openOk then
    (true, ⟨true, [], some 0, some 0⟩)
  else
    (false, ⟨false, [], s.audio_stream, s.recording_thread⟩)

/-- One iteration of the `_record_audio` capture loop: while the flag and
the stream are both live, one chunk is read and appended. -/
def record_step (chunk : List Nat) (s : RecorderState) : RecorderState :=
  if s.recording ∧ s.audio_stream.isSome then
    ⟨s.recording, s.audio_frames ++ [chunk], s.audio_stream, s.recording_thread⟩
  else s

/-- Observable actions performed by `stop_recording`, in program order. -/
inductive StopEvent where
  | setRecordingFalse
  | stopStream
  | closeStream
  | joinThread
  | saveWav (frames : List (List Nat))
  deriving DecidableEq

/-- Method `AudioRecorder.stop_recording` (no callback, as the application
calls it): returns the saved frame list (`none` when nothing is saved), the
state afterwards, and the ordered list of actions it performed.  The code
stops and closes the stream, then joins the capture thread, then saves the
buffered frames when the buffer is nonempty. -/
def stop_recording (s : RecorderState) :
    Option (List (List Nat)) × RecorderState × List StopEvent :=
  if ¬ s.recording then (none, s, [])
  else if s.audio_frames ≠ [] then
    (some s.audio_frames, ⟨false, s.audio_frames, none, none⟩,
      StopEvent.setRecordingFalse ::
        (if s.audio_stream.isSome then [StopEvent.stopStream, StopEvent.closeStream] else []) ++
        (if s.recording_thread.isSome then [StopEvent.joinThread] else []) ++
        [StopEvent.saveWav s.audio_frames])
  else
    (none, ⟨false, s.audio_frames, none, none⟩,
      StopEvent.setRecordingFalse ::
        (if s.audio_stream.isSome then [StopEvent.stopStream, StopEvent.closeStream] else []) ++
        (if s.recording_thread.isSome then [StopEvent.joinThread] else []))

/-! ## WAV serialization (AudioRecorder._save_audio_file via the wave module)

The Python `wave` module emits the canonical 44-byte PCM header: RIFF size,
WAVE, a 16-byte fmt chunk (format 1, channels, rate, byte rate, block
align, bits per sample), then the data chunk. -/

/-- Two bytes, little endian. -/
def le16 (n : Nat) : List Nat := [n % 256, n / 256 % 256]

/-- Four bytes, little endian. -/
def le32 (n : Nat) : List Nat :=
  [n % 256, n / 256 % 256, n / 65536 % 256, n / 16777216 % 256]

/-- Byte image of the WAV file produced by `wave.open(...,'wb')` with the
given channel count, sample width in bytes, frame rate, and frame data. -/
def wavBytes (nch width rate : Nat) (data : List Nat) : List Nat :=
  [82, 73, 70, 70] ++ le32 (36 + data.length) ++ [87, 65, 86, 69] ++
  [102, 109, 116, 32] ++ le32 16 ++ le16 1 ++ le16 nch ++ le32 rate ++
  le32 (rate * nch * width) ++ le16 (nch * width) ++ le16 (8 * width) ++
  [100, 97, 116, 97] ++ le32 data.length ++ data

/-- Method `AudioRecorder._save_audio_file`: writes the configured channel
count and sample rate, sample width 2 (`get_sample_size(paInt16)`), and
`b''.join(self.audio_frames)` as the frame data. -/
def save_audio_file (nch rate : Nat) (frames : List (List Nat)) : List Nat :=
  wavBytes nch 2 rate frames.flatten

/-- Value of two little-endian bytes. -/
def readLE16 (a b : Nat) : Nat := a + 256 * b

/-- Value of four little-endian bytes. -/
def readLE32 (a b c d : Nat) : Nat := a + 256 * b + 65536 * c + 16777216 * d

/-- A standard WAV reader over the canonical layout: checks the RIFF/WAVE
magics, the 16-byte PCM fmt chunk and the data chunk tag, and returns
(channels, frame rate, sample width in bytes, sample bytes). -/
def readWav (bs : List Nat) : Option (Nat × Nat × Nat × List Nat) :=
  match bs with
  | 82 :: 73 :: 70 :: 70 :: _r0 :: _r1 :: _r2 :: _r3 :: 87 :: 65 :: 86 :: 69 ::
    102 :: 109 :: 116 :: 32 :: 16 :: 0 :: 0 :: 0 :: 1 :: 0 :: c0 :: c1 ::
    f0 :: f1 :: f2 :: f3 :: _b0 :: _b1 :: _b2 :: _b3 :: _a0 :: _a1 :: w0 :: w1 ::
    100 :: 97 :: 116 :: 97 :: l0 :: l1 :: l2 :: l3 :: rest =>
    let bits := readLE16 w0 w1
    if bits % 8 = 0 then
      some (readLE16 c0 c1, readLE32 f0 f1 f2 f3, bits / 8,
        rest.take (readLE32 l0 l1 l2 l3))
    else none
  | _ => none

/-! ## TranscriptionService (src/nuu_dictate/transcription.py) -/

/-- Constructor `TranscriptionService.__init__`: the OpenAI client is
created only when the configured key is truthy; the client is represented
by the key it carries. -/
def initClient (apiKey : Option String) : Option String :=
  if pyTruthyStr apiKey then apiKey else none

/-- Method `_transcribe_sync` given the backend behaviour of the one
`transcriptions.create` call: an exception (`Except.error`) is caught and
becomes `none`.  The second component counts HTTP calls attempted. -/
def transcribe_sync (backend : Except Unit String) : Option String × Nat :=
  match backend with
  | .ok t => (some t, 1)
  | .error _ => (none, 1)

/-- Method `transcribe_audio`: returns the transcript (or `none`), the
number of HTTP calls attempted, and the list of (path, text) transcript
files written.  A missing client or missing audio file short-circuits
before any call; a falsy transcript (exception or empty text) produces no
result and no file. -/
def transcribe_audio (client : Option String) (fileExists : Bool)
    (audioBase : String) (backend : Except Unit String) :
    Option String × Nat × List (String × String) :=
  match client with
  | none => (none, 0, [])
  | some _ =>
    if ¬ fileExists then (none, 0, [])
    else
      let r := transcribe_sync backend
      match r.1 with
      | some t =>
        if t = "" then (none, r.2, [])
        else (some t, r.2, [(audioBase ++ ".txt", t)])
      | none => (none, r.2, [])

/-! ## Application hotkey handling (src/nuu_dictate/app.py)

`_on_hotkey` branches on `audio_recorder.recording` alone and schedules the
start or stop coroutine on the asyncio loop, which serializes them.  The
transcription scheduled by `_stop_recording` stays in flight until its own
completion event.  `inflight` counts sessions in Processing; `liveThreads`
counts capture threads spawned and not yet joined. -/

/-- Orchestrator-level state. -/
structure AppState where
  recorder : RecorderState
  inflight : Nat
  liveThreads : Nat
  deriving DecidableEq

/-- Initial application state. -/
def initApp : AppState := ⟨initRecorder, 0, 0⟩

/-- Events interleaved on the asyncio loop: a hotkey press (with the fate
of `audio.open`), one capture-loop read, or completion of an in-flight
transcription task. -/
inductive AppEvent where
  | hotkey (openOk : Bool)
  | capture (chunk : List Nat)
  | processingDone
  deriving DecidableEq

/-- One serialized step of the application: `_on_hotkey` dispatches on the
recording flag; the stop path runs `stop_recording` (which joins the
capture thread) and schedules `_process_recording` exactly when a path was
returned. -/
def appStep (s : AppState) (e : AppEvent) : AppState :=
  match e with
  | .capture b => ⟨record_step b s.recorder, s.inflight, s.liveThreads⟩
  | .processingDone => ⟨s.recorder, s.inflight - 1, s.liveThreads⟩
  | .hotkey ok =>
    if s.recorder.recording then
      let r := stop_recording s.recorder
      ⟨r.2.1, s.inflight + (if r.1.isSome then 1 else 0), s.liveThreads - 1⟩
    else
      let r := start_recording ok s.recorder
      ⟨r.2, s.inflight, s.liveThreads + (if r.1 then 1 else 0)⟩

/-- Run the application from the initial state over an event trace. -/
def runApp (tr : List AppEvent) : AppState :=
  tr.foldl appStep initApp

/-! ## Helper lemmas -/

/-- Reading back two little-endian bytes of a 16-bit value. -/
theorem readLE16_le16 (n : Nat) (h : n < 65536) :
    readLE16 (n % 256) (n / 256 % 256) = n := by
  unfold readLE16
  omega

/-- Reading back four little-endian bytes of a 32-bit value. -/
theorem readLE32_le32 (n : Nat) (h : n < 4294967296) :
    readLE32 (n % 256) (n / 256 % 256) (n / 65536 % 256) (n / 16777216 % 256) = n := by
  unfold readLE32
  omega

/-- The reader on the canonical header shape with sample width 2. -/
theorem readWav_cons (r0 r1 r2 r3 c0 c1 f0 f1 f2 f3 b0 b1 b2 b3 a0 a1 l0 l1 l2 l3 : Nat)
    (rest : List Nat) :
    readWav (82 :: 73 :: 70 :: 70 :: r0 :: r1 :: r2 :: r3 :: 87 :: 65 :: 86 :: 69 ::
      102 :: 109 :: 116 :: 32 :: 16 :: 0 :: 0 :: 0 :: 1 :: 0 :: c0 :: c1 ::
      f0 :: f1 :: f2 :: f3 :: b0 :: b1 :: b2 :: b3 :: a0 :: a1 :: 16 :: 0 ::
      100 :: 97 :: 116 :: 97 :: l0 :: l1 :: l2 :: l3 :: rest) =
      some (readLE16 c0 c1, readLE32 f0 f1 f2 f3, 2, rest.take (readLE32 l0 l1 l2 l3)) := rfl

/-- A capture-loop iteration never changes the recording flag. -/
theorem record_step_recording (b : List Nat) (r : RecorderState) :
    (record_step b r).recording = r.recording := by
  unfold record_step
  split <;> rfl

/-- After `stop_recording` on a recording state, the flag is down. -/
theorem stop_recording_flag (r : RecorderState) (hr : r.recording = true) :
    (stop_recording r).2.1.recording = false := by
  unfold stop_recording
  rw [if_neg (by simp [hr])]
  split <;> rfl

/-- The application invariant: the number of live capture threads matches
the recording flag, and `appStep` preserves it. -/
theorem appStep_inv (s : AppState) (e : AppEvent)
    (h : s.liveThreads = if s.recorder.recording then 1 else 0) :
    (appStep s e).liveThreads = if (appStep s e).recorder.recording then 1 else 0 := by
  cases e with
  | capture b =>
    simp only [appStep, record_step_recording]
    exact h
  | processingDone =>
    simpa using h
  | hotkey ok =>
    by_cases hr : s.recorder.recording = true
    · have hf := stop_recording_flag s.recorder hr
      simp [hr] at h
      simp [appStep, hr, hf, h]
    · simp [hr] at h
      cases ok
      · simp [appStep, hr, start_recording, h]
      · simp [appStep, hr, start_recording, h]

/-- Folding the invariant along a trace. -/
theorem appFold_inv (tr : List AppEvent) (s : AppState)
    (h : s.liveThreads = if s.recorder.recording then 1 else 0) :
    (tr.foldl appStep s).liveThreads =
      if (tr.foldl appStep s).recorder.recording then 1 else 0 := by
  induction tr generalizing s with
  | nil => simpa using h
  | cons e tr ih => exact ih (appStep s e) (appStep_inv s e h)

/-! ## Claims -/

/-- Claim C4: frames b1, b2, b3 buffered during a recording, serialized by
the WAV writer, read back by a standard WAV reader, report the configured
channel count and sample rate, sample width 2 bytes (16 bits), and the
concatenated sample bytes b1 plus b2 plus b3 in append order. -/
theorem wav_roundtrip (nch rate : Nat) (b1 b2 b3 : List Nat)
    (hn : nch < 65536) (hr : rate < 4294967296)
    (hd : (b1 ++ b2 ++ b3).length < 4294967296) :
    readWav (save_audio_file nch rate [b1, b2, b3]) =
      some (nch, rate, 2, b1 ++ b2 ++ b3) := by
  simp only [save_audio_file, wavBytes, le16, le32, List.flatten_cons, List.flatten_nil,
    List.append_nil, List.cons_append, List.nil_append]
  norm_num
  rw [readWav_cons]
  norm_num
  refine ⟨readLE16_le16 nch hn, readLE32_le32 rate hr, ?_⟩
  have hlen : b1.length + (b2.length + b3.length) < 4294967296 := by
    simpa [List.length_append, Nat.add_assoc] using hd
  unfold readLE32
  omega

/-- Witness for C4 at concrete chunks. -/
theorem wav_roundtrip_witness :
    readWav (save_audio_file 1 44100 [[0, 1], [2, 3], [4, 5]]) =
      some (1, 44100, 2, [0, 1, 2, 3, 4, 5]) :=
  wav_roundtrip 1 44100 [0, 1] [2, 3] [4, 5] (by decide) (by decide) (by decide)

/-- Claim C7: a second start_recording without an intervening stop reports
failure and leaves the recorder state, frame buffer included, unchanged. -/
theorem second_start_noop (ok1 ok2 : Bool) (s s1 : RecorderState)
    (h : start_recording ok1 s = (true, s1)) :
    start_recording ok2 s1 = (false, s1) := by
  by_cases hr : s.recording
  · simp [start_recording, hr] at h
  · by_cases ho : ok1
    · simp [start_recording, hr, ho] at h
      rw [← h]
      simp [start_recording]
    · simp [start_recording, hr, ho] at h

/-- Witness for C7: start from the initial state, then start again. -/
theorem second_start_noop_witness :
    start_recording true ⟨true, [], some 0, some 0⟩ =
      (false, ⟨true, [], some 0, some 0⟩) :=
  second_start_noop true true initRecorder ⟨true, [], some 0, some 0⟩ (by decide)

/-- Claim C8: stopping with an empty frame buffer returns no result and
performs no WAV save. -/
theorem stop_no_frames_no_wav (s : RecorderState) (hrec : s.recording = true)
    (hemp : s.audio_frames = []) :
    (stop_recording s).1 = none ∧
    ∀ fr, StopEvent.saveWav fr ∉ (stop_recording s).2.2 := by
  unfold stop_recording
  simp only [hrec, hemp]
  constructor
  · simp
  · intro fr
    by_cases hs : s.audio_stream.isSome <;> by_cases ht : s.recording_thread.isSome <;>
      simp [hs, ht]

/-- Witness for C8 on a concrete empty-buffer recording state. -/
theorem stop_no_frames_no_wav_witness :
    (stop_recording ⟨true, [], some 0, some 0⟩).1 = none ∧
    ∀ fr, StopEvent.saveWav fr ∉ (stop_recording ⟨true, [], some 0, some 0⟩).2.2 :=
  stop_no_frames_no_wav ⟨true, [], some 0, some 0⟩ rfl rfl

/-- Claim C1 counterexample: a hotkey toggle received while a transcription
is still in flight (Processing) is not dropped.  After the trace start,
capture, stop, toggle, a transcription is in flight and a new recording has
started, so two sessions are in the set of Recording and Processing states
at once. -/
theorem toggle_during_processing_not_dropped :
    (runApp [AppEvent.hotkey true, AppEvent.capture [1], AppEvent.hotkey true,
      AppEvent.hotkey true]).recorder.recording = true ∧
    (runApp [AppEvent.hotkey true, AppEvent.capture [1], AppEvent.hotkey true,
      AppEvent.hotkey true]).inflight = 1 := by
  decide

/-- Claim C1 as amended: a toggle received while the session is Processing
is treated like a toggle in Idle and starts a new recording, leaving the
in-flight transcription count unchanged; nevertheless, along every event
trace at most one capture thread exists concurrently. -/
theorem toggle_processing_starts_new_recording :
    (∀ tr : List AppEvent, (runApp tr).liveThreads ≤ 1) ∧
    (∀ s : AppState, s.recorder.recording = false →
      (appStep s (AppEvent.hotkey true)).recorder.recording = true ∧
      (appStep s (AppEvent.hotkey true)).inflight = s.inflight) := by
  constructor
  · intro tr
    have h := appFold_inv tr initApp rfl
    unfold runApp
    rw [h]
    split <;> simp
  · intro s hrec
    constructor
    · simp [appStep, hrec, start_recording]
    · simp [appStep, hrec, start_recording]

/-- Witness for the amended C1: a toggle while one transcription is in
flight starts a recording and keeps the transcription in flight. -/
theorem toggle_processing_starts_new_recording_witness :
    (appStep ⟨initRecorder, 1, 0⟩ (AppEvent.hotkey true)).recorder.recording = true ∧
    (appStep ⟨initRecorder, 1, 0⟩ (AppEvent.hotkey true)).inflight = 1 :=
  toggle_processing_starts_new_recording.2 ⟨initRecorder, 1, 0⟩ rfl

/-- Claim C2 counterexample: on a concrete recording state, stop_recording
emits closeStream strictly before joinThread, so the stream is closed
before the capture thread is joined, not after. -/
theorem stop_closes_stream_before_join :
    StopEvent.closeStream ∈ (stop_recording ⟨true, [[1]], some 0, some 0⟩).2.2 ∧
    StopEvent.joinThread ∈ (stop_recording ⟨true, [[1]], some 0, some 0⟩).2.2 ∧
    (stop_recording ⟨true, [[1]], some 0, some 0⟩).2.2.indexOf StopEvent.closeStream <
      (stop_recording ⟨true, [[1]], some 0, some 0⟩).2.2.indexOf StopEvent.joinThread := by
  decide

/-- Claim C2 as amended: stop_recording performs, in order, flag reset,
stream stop, stream close, thread join, and only after the join (last) the
save of the buffered frames; so the join does happen before the buffer is
read, but the stream is closed before the join rather than after it. -/
theorem stop_event_order (s : RecorderState) (hrec : s.recording = true)
    (hstream : s.audio_stream.isSome = true) (hthread : s.recording_thread.isSome = true) :
    (stop_recording s).2.2 =
      StopEvent.setRecordingFalse :: StopEvent.stopStream :: StopEvent.closeStream ::
        StopEvent.joinThread ::
        (if s.audio_frames = [] then [] else [StopEvent.saveWav s.audio_frames]) ∧
    (stop_recording s).2.1 = ⟨false, s.audio_frames, none, none⟩ := by
  unfold stop_recording
  rw [if_neg (by simp [hrec])]
  by_cases hf : s.audio_frames = [] <;> simp [hf, hstream, hthread]

/-- Witness for the amended C2 at a concrete recording state. -/
theorem stop_event_order_witness :
    (stop_recording ⟨true, [[1]], some 1, some 1⟩).2.2 =
      [StopEvent.setRecordingFalse, StopEvent.stopStream, StopEvent.closeStream,
        StopEvent.joinThread, StopEvent.saveWav [[1]]] ∧
    (stop_recording ⟨true, [[1]], some 1, some 1⟩).2.1 = ⟨false, [[1]], none, none⟩ := by
  have h := stop_event_order ⟨true, [[1]], some 1, some 1⟩ rfl rfl rfl
  simpa using h

/-- Claim C3 counterexample: Config fields are not a snapshot; a mutation
of the environment after the load changes the value returned by a later
read of the same field. -/
theorem config_not_snapshot :
    log_level (setenv [] "LOG_LEVEL" "DEBUG") ≠ log_level [] := by
  decide

/-- Claim C3 as amended: every Config field is recomputed from the current
process environment at each access, so two reads agree exactly when the
environment gives the same answers, and the CLI overrides take effect
because they mutate the environment before Config is re-created. -/
theorem config_reads_current_env (e e2 : Env) (h : ∀ k, getenv e k = getenv e2 k) :
    (openai_api_key e = openai_api_key e2 ∧
     openai_base_url e = openai_base_url e2 ∧
     audio_sample_rate e = audio_sample_rate e2 ∧
     audio_channels e = audio_channels e2 ∧
     audio_chunk_size e = audio_chunk_size e2 ∧
     hotkey_combination e = hotkey_combination e2 ∧
     log_level e = log_level e2 ∧
     ∀ home, resolveRecFolder home e = resolveRecFolder home e2) ∧
    ∀ (a : Args) (hk : String), a.hotkey = some hk →
      hotkey_combination (applyOverrides a e) = hk := by
  have hset : ∀ (ex : Env) (v : String),
      hotkey_combination (setenv ex "HOTKEY_COMBINATION" v) = v := by
    intro ex v
    simp [hotkey_combination, getenvD, setenv, getenv]
  constructor
  · refine ⟨?_, ?_, ?_, ?_, ?_, ?_, ?_, ?_⟩ <;>
      simp [openai_api_key, openai_base_url, audio_sample_rate, audio_channels,
        audio_chunk_size, hotkey_combination, log_level, resolveRecFolder, getenvD, h]
  · intro a hk hhk
    obtain ⟨ll, rf, hky, vc⟩ := a
    simp only at hhk
    subst hhk
    simp only [applyOverrides]
    exact hset _ hk

/-- Witness for the amended C3: the hotkey CLI flag overrides the hotkey
read from the environment. -/
theorem config_reads_current_env_witness :
    hotkey_combination
      (applyOverrides ⟨some "DEBUG", none, some "<ctrl>+<alt>+d", false⟩ []) =
      "<ctrl>+<alt>+d" :=
  (config_reads_current_env [] [] (fun _ => rfl)).2
    ⟨some "DEBUG", none, some "<ctrl>+<alt>+d", false⟩ "<ctrl>+<alt>+d" rfl

/-- Claim C5: when the transcription backend raises, transcribe_audio
returns no text and writes no transcript file, for every client, file
presence and audio path. -/
theorem transcribe_backend_error_no_text_no_file (client : Option String)
    (fileExists : Bool) (base : String) :
    (transcribe_audio client fileExists base (Except.error ())).1 = none ∧
    (transcribe_audio client fileExists base (Except.error ())).2.2 = [] := by
  cases client <;> cases fileExists <;> simp [transcribe_audio, transcribe_sync]

/-- Claim C6: with no API key configured (missing or empty), every call to
transcribe_audio returns no result and issues zero HTTP calls, whatever the
backend would have answered. -/
theorem no_api_key_fails_before_network (apiKey : Option String)
    (fileExists : Bool) (base : String) (backend : Except Unit String)
    (h : apiKey = none ∨ apiKey = some "") :
    (transcribe_audio (initClient apiKey) fileExists base backend).1 = none ∧
    (transcribe_audio (initClient apiKey) fileExists base backend).2.1 = 0 := by
  have hc : initClient apiKey = none := by
    rcases h with h | h <;> subst h <;> simp [initClient, pyTruthyStr]
  simp [hc, transcribe_audio]

/-- Witness for C6 with a backend that would have answered. -/
theorem no_api_key_fails_before_network_witness :
    (transcribe_audio (initClient none) true "rec" (Except.ok "hello")).1 = none ∧
    (transcribe_audio (initClient none) true "rec" (Except.ok "hello")).2.1 = 0 :=
  no_api_key_fails_before_network none true "rec" (Except.ok "hello") (Or.inl rfl)

/-- Claim C9: validate is false when the API key is missing and true when
the key is present and the recordings folder resolves (exists or is
creatable); in validate-only mode the CLI never starts the hotkey listener
and exits 0 exactly when validation succeeds, 1 otherwise. -/
theorem validate_and_validate_only_mode (home : String) (e : Env) (fs : Fs) (a : Args) :
    (openai_api_key e = none → validate home e fs = some (false, fs)) ∧
    (pyTruthyStr (openai_api_key e) = true →
      ∀ p fs2, recordings_folder home e fs = some (p, fs2) →
        validate home e fs = some (true, fs2)) ∧
    (a.validate_config = true →
      (cliMain home a e fs).hotkeyListenerStarted = false ∧
      ∀ b fs2, validate home (applyOverrides a e) fs = some (b, fs2) →
        (cliMain home a e fs).exitCode = some (if b then 0 else 1)) := by
  refine ⟨?_, ?_, ?_⟩
  · intro hk
    unfold validate
    simp [hk, pyTruthyStr, openai_api_key] at hk ⊢
    simp [hk]
  · intro hk p fs2 hrf
    have hcont : p ∈ fs2.dirs := by
      unfold recordings_folder at hrf
      rcases hm : mkdirParents fs (resolveRecFolder home e) with _ | fs3
      · simp [hm] at hrf
      · simp [hm] at hrf
        obtain ⟨hp, hfs⟩ := hrf
        subst hp
        subst hfs
        unfold mkdirParents at hm
        by_cases h1 : resolveRecFolder home e ∈ fs.dirs
        · simp [h1] at hm
          rw [← hm]
          exact h1
        · by_cases h2 : resolveRecFolder home e ∈ fs.mkdirOk
          · simp [h1, h2] at hm
            rw [← hm]
            exact List.mem_cons_self _ _
          · simp [h1, h2] at hm
    unfold validate
    rw [if_neg (by simp [hk])]
    rw [hrf]
    simp [hcont]
  · intro hvc
    constructor
    · unfold cliMain
      simp only [hvc, if_true]
      rcases hv : validate home (applyOverrides a e) fs with _ | ⟨b, fs2⟩
      · simp [hv]
      · cases b <;> simp [hv]
    · intro b fs2 hv
      unfold cliMain
      simp only [hvc, if_true]
      cases b <;> simp [hv]

/-- Witness for C9: a present key and an existing default recordings folder
make the validate-only run exit 0 without starting the listener. -/
theorem validate_and_validate_only_mode_witness :
    (cliMain "/h" ⟨none, none, none, true⟩ [("OPENAI_API_KEY", "k")]
        ⟨["/h/Documents/VoiceRecordings"], []⟩).hotkeyListenerStarted = false ∧
    (cliMain "/h" ⟨none, none, none, true⟩ [("OPENAI_API_KEY", "k")]
        ⟨["/h/Documents/VoiceRecordings"], []⟩).exitCode = some 0 := by
  have h := (validate_and_validate_only_mode "/h" [("OPENAI_API_KEY", "k")]
    ⟨["/h/Documents/VoiceRecordings"], []⟩ ⟨none, none, none, true⟩).2.2 rfl
  refine ⟨h.1, ?_⟩
  have h2 := h.2 true ⟨["/h/Documents/VoiceRecordings"], []⟩ (by decide)
  simpa using h2

/-- Claim C10: a non-numeric AUDIO_SAMPLE_RATE makes the property raise
(no fallback to the default 44100, which only applies when the variable is
absent), while validate on such an environment still succeeds, so
validation does not protect the audio parameters. -/
theorem nonnumeric_audio_setting_not_validated :
    audio_sample_rate (setenv [] "AUDIO_SAMPLE_RATE" "48k") = none ∧
    audio_sample_rate [] = some 44100 ∧
    validate "/h" (setenv (setenv [] "OPENAI_API_KEY" "k") "AUDIO_SAMPLE_RATE" "48k")
        ⟨["/h/Documents/VoiceRecordings"], []⟩ =
      some (true, ⟨["/h/Documents/VoiceRecordings"], []⟩) := by
  decide

end NuuDictate
